import Mathlib

/-!
Shallow embedding of the per-frame game logic of `src/main.rs` (an
Amethyst-based jump/dodge game).  The original logic is the `run` method of
`PlaySystem` (lines 43–86): per frame it updates every `Rock` component
(gravity integration, jump impulse, ground clamp) and every `Obstacle`
component (leftward scroll, wrap-around), mirroring the new positions into
the render transforms.  Numeric state is `f32` in the source; here it is
modelled as `ℚ`, so every arithmetic identity is exact.
-/

namespace AmethystGame

/-- Source constant `SCREEN_WIDTH = 500.` (line 20). -/
def SCREEN_WIDTH : ℚ := 500

/-- Source constant `SCREEN_HEIGHT = 500.` (line 21). -/
def SCREEN_HEIGHT : ℚ := 500

/-- Source constant `OBSTACLE_WIDTH = 303.` (line 22). -/
def OBSTACLE_WIDTH : ℚ := 303

/-- Source constant `OBSTACLE_HEIGHT = 302.` (line 23). -/
def OBSTACLE_HEIGHT : ℚ := 302

/-- Source constant `ROCK_HEIGHT = 52.` (line 24); the spec calls this
`GROUND_HEIGHT`. -/
def ROCK_HEIGHT : ℚ := 52

/-- Source constant `GRAVITY = -0.5` (line 25), written as the exact
rational -(1/2). -/
def GRAVITY : ℚ := -(1/2)

/-- The `Rock` component (source lines 177–180): vertical position and
signed velocity. -/
structure Rock where
  y : ℚ
  velocity : ℚ
deriving DecidableEq, Repr

/-- `Rock::new` (source lines 183–188): starts at y = 100 with velocity 0. -/
def Rock.new : Rock := { y := 100, velocity := 0 }

/-- The `Obstacle` component (source lines 207–209): horizontal position. -/
structure Obstacle where
  x : ℚ
deriving DecidableEq, Repr

/-- `Obstacle::new` (source lines 212–216): starts at x = SCREEN_HEIGHT - 10
(= 490). -/
def Obstacle.new : Obstacle := { x := SCREEN_HEIGHT - 10 }

/-- The frame-rate-normalized time delta computed at source lines 48 and 76:
`dt = time.delta_real_seconds() * 70.`. -/
def dtOf (elapsedRealSeconds : ℚ) : ℚ := elapsedRealSeconds * 70

/-- The velocity after the integration step for one rock update
(source lines 50–57): if the Return key is down the velocity is first
overwritten with the jump impulse 7 (line 52), then gravity is integrated:
`new_velocity = rock.velocity + GRAVITY * dt` (line 57). -/
def newVelocityOf (jump : Bool) (dt : ℚ) (r : Rock) : ℚ :=
  (if jump then 7 else r.velocity) + GRAVITY * dt

/-- The raw integrated position for one rock update (source line 58):
`new_y = rock.y + new_velocity * dt`. -/
def newYOf (jump : Bool) (dt : ℚ) (r : Rock) : ℚ :=
  r.y + newVelocityOf jump dt r * dt

/-- One full rock update (source lines 50–69): jump impulse, semi-implicit
Euler integration, then the ground clamp of lines 61–64
(`if new_y <= ROCK_HEIGHT / 2. { new_velocity = 0.; new_y = ROCK_HEIGHT / 2.; }`). -/
def rockStep (jump : Bool) (dt : ℚ) (r : Rock) : Rock :=
  if newYOf jump dt r ≤ ROCK_HEIGHT / 2 then
    { y := ROCK_HEIGHT / 2, velocity := 0 }
  else
    { y := newYOf jump dt r, velocity := newVelocityOf jump dt r }

/-- One full obstacle update (source lines 76–83):
`new_x = obstacle.x - 5. * dt`, then the wrap of lines 80–82
(`if new_x <= -OBSTACLE_WIDTH / 2. { new_x = SCREEN_WIDTH; }`). -/
def obstacleStep (dt : ℚ) (o : Obstacle) : Obstacle :=
  if o.x - 5 * dt ≤ -OBSTACLE_WIDTH / 2 then { x := SCREEN_WIDTH }
  else { x := o.x - 5 * dt }

/-- The combined observable state of one frame: both components plus the
coordinates the system mirrors into the render transforms
(source lines 67 and 84). -/
structure World where
  rock : Rock
  rockTransformY : ℚ
  obstacle : Obstacle
  obstacleTransformX : ℚ
deriving DecidableEq, Repr

/-- One invocation of `PlaySystem::run` (source lines 43–86): both loops
compute the same `dt` from the elapsed real seconds, the rock loop writes
`new_y` into the transform and the component (lines 67–69), the obstacle
loop writes `new_x` into the component and the transform (lines 83–84). -/
def frameUpdate (jump : Bool) (elapsed : ℚ) (w : World) : World :=
  let r := rockStep jump (dtOf elapsed) w.rock
  let o := obstacleStep (dtOf elapsed) w.obstacle
  { rock := r, rockTransformY := r.y, obstacle := o, obstacleTransformX := o.x }

/-- The scene-start state built by `set_rock` (lines 119–133, which sets the
rock transform to `(SCREEN_WIDTH / 4., 0., 0.)`, so its vertical coordinate
is 0) and `set_obstacle` (lines 136–150, transform x = SCREEN_HEIGHT - 10),
with the components from `Rock::new` and `Obstacle::new`. -/
def initialWorld : World :=
  { rock := Rock.new
    rockTransformY := 0
    obstacle := Obstacle.new
    obstacleTransformX := SCREEN_HEIGHT - 10 }

/-- Iterated rock updates: one `rockStep` per list element, each element
giving that frame its jump-input flag and its dt. -/
def runSteps (r : Rock) (inputs : List (Bool × ℚ)) : Rock :=
  inputs.foldl (fun s i => rockStep i.1 i.2 s) r

/-- Iterated obstacle updates: one `obstacleStep` per listed dt. -/
def runObstacle (o : Obstacle) (dts : List ℚ) : Obstacle :=
  dts.foldl (fun s d => obstacleStep d s) o

lemma runSteps_nil (r : Rock) : runSteps r [] = r := rfl

lemma runSteps_cons (r : Rock) (i : Bool × ℚ) (l : List (Bool × ℚ)) :
    runSteps r (i :: l) = runSteps (rockStep i.1 i.2 r) l := rfl

lemma runObstacle_nil (o : Obstacle) : runObstacle o [] = o := rfl

lemma runObstacle_cons (o : Obstacle) (d : ℚ) (l : List ℚ) :
    runObstacle o (d :: l) = runObstacle (obstacleStep d o) l := rfl

lemma rockStep_of_clamp {jump : Bool} {dt : ℚ} {r : Rock}
    (h : newYOf jump dt r ≤ ROCK_HEIGHT / 2) :
    rockStep jump dt r = { y := ROCK_HEIGHT / 2, velocity := 0 } := by
  simp [rockStep, h]

lemma rockStep_of_no_clamp {jump : Bool} {dt : ℚ} {r : Rock}
    (h : ROCK_HEIGHT / 2 < newYOf jump dt r) :
    rockStep jump dt r = { y := newYOf jump dt r, velocity := newVelocityOf jump dt r } := by
  simp [rockStep, not_le.mpr h]

/-- Claim C1 counterexample: with no jump, dt = 1 and the airborne pre-state
y = 27 > ROCK_HEIGHT/2 = 26, velocity = -2, the raw integration gives
27 + (-2 + GRAVITY)·1 = 24.5 ≤ 26, so the ground clamp fires and the
post-state is (y = 26, velocity = 0) — not the exact Euler values
(24.5, -2.5) the claim asserts for every airborne pre-state. -/
theorem c1_counterexample :
    (27 : ℚ) > ROCK_HEIGHT / 2 ∧
    ¬ ((rockStep false 1 { y := 27, velocity := -2 }).velocity = -2 + GRAVITY * 1 ∧
       (rockStep false 1 { y := 27, velocity := -2 }).y = 27 + (-2 + GRAVITY * 1) * 1) := by
  constructor
  · norm_num [ROCK_HEIGHT]
  · intro hcontra
    have h : rockStep false 1 { y := 27, velocity := -2 } =
        { y := ROCK_HEIGHT / 2, velocity := 0 } := by
      apply rockStep_of_clamp
      norm_num [newYOf, newVelocityOf, ROCK_HEIGHT, GRAVITY]
    rw [h] at hcontra
    norm_num [GRAVITY] at hcontra

/-- Claim C1 (amended): for an update step with the jump input not pressed,
an airborne pre-state (y > ROCK_HEIGHT/2 = 26), and the raw integrated
position staying strictly above ROCK_HEIGHT/2 (so the ground clamp does not
fire), the post-state exactly satisfies
velocity_post = velocity + GRAVITY·dt and y_post = y + velocity_post·dt,
with GRAVITY = -1/2 and dt = elapsed·70. -/
theorem c1_no_jump_airborne_integration (elapsed : ℚ) (r : Rock)
    (hair : ROCK_HEIGHT / 2 < r.y)
    (hnoclamp : ROCK_HEIGHT / 2 <
      r.y + (r.velocity + GRAVITY * (elapsed * 70)) * (elapsed * 70)) :
    (rockStep false (dtOf elapsed) r).velocity = r.velocity + GRAVITY * (elapsed * 70) ∧
    (rockStep false (dtOf elapsed) r).y =
      r.y + (r.velocity + GRAVITY * (elapsed * 70)) * (elapsed * 70) := by
  have h : ROCK_HEIGHT / 2 < newYOf false (dtOf elapsed) r := by
    simpa [newYOf, newVelocityOf, dtOf] using hnoclamp
  rw [rockStep_of_no_clamp h]
  constructor
  · simp [newVelocityOf, dtOf]
  · simp [newYOf, newVelocityOf, dtOf]

/-- Claim C1 witness: a concrete airborne no-jump frame (elapsed = 1/70, so
dt = 1) from the creation state y = 100, velocity = 0, whose post-state is
exactly the integrated one. -/
theorem c1_no_jump_airborne_integration_witness :
    (rockStep false (dtOf (1/70)) { y := 100, velocity := 0 }).velocity =
      0 + GRAVITY * ((1/70) * 70) ∧
    (rockStep false (dtOf (1/70)) { y := 100, velocity := 0 }).y =
      100 + (0 + GRAVITY * ((1/70) * 70)) * ((1/70) * 70) :=
  c1_no_jump_airborne_integration (1/70) { y := 100, velocity := 0 }
    (by norm_num [ROCK_HEIGHT]) (by norm_num [ROCK_HEIGHT, GRAVITY])

/-- Claim C2: whenever the jump input is pressed, the velocity produced by
the integration step (source line 57, before the ground clamp) equals
7 + GRAVITY·dt, for every dt and regardless of the prior velocity — the
impulse of source line 52 overwrites the stored velocity unconditionally
before gravity is integrated in the same step. -/
theorem c2_jump_overrides_velocity (dt : ℚ) (r s : Rock) :
    newVelocityOf true dt r = 7 + GRAVITY * dt ∧
    newVelocityOf true dt r = newVelocityOf true dt s := by
  constructor <;> simp [newVelocityOf]

/-- Claim C3: whenever the raw integrated position is at most
ROCK_HEIGHT/2 = 26 the corrected post-state is exactly
(y = 26, velocity = 0); and one further update from this resting state with
no jump input and any dt ≥ 0 leaves it unchanged (stable fixed point). -/
theorem c3_ground_clamp_fixed_point (jump : Bool) (dt dt2 : ℚ) (r : Rock)
    (hclamp : newYOf jump dt r ≤ ROCK_HEIGHT / 2) (hdt2 : 0 ≤ dt2) :
    (rockStep jump dt r).velocity = 0 ∧
    (rockStep jump dt r).y = ROCK_HEIGHT / 2 ∧
    rockStep false dt2 { y := ROCK_HEIGHT / 2, velocity := 0 } =
      { y := ROCK_HEIGHT / 2, velocity := 0 } := by
  refine ⟨?_, ?_, ?_⟩
  · rw [rockStep_of_clamp hclamp]
  · rw [rockStep_of_clamp hclamp]
  · apply rockStep_of_clamp
    have hsq : 0 ≤ dt2 * dt2 := mul_self_nonneg dt2
    simp only [newYOf, newVelocityOf, GRAVITY, ROCK_HEIGHT, Bool.false_eq_true, if_false]
    nlinarith

/-- Claim C3 witness: a concrete clamping frame (y = 20, velocity = 0,
dt = 1, no jump: raw position 19.5 ≤ 26) followed by a resting frame with
dt = 1. -/
theorem c3_ground_clamp_fixed_point_witness :
    (rockStep false 1 { y := 20, velocity := 0 }).velocity = 0 ∧
    (rockStep false 1 { y := 20, velocity := 0 }).y = ROCK_HEIGHT / 2 ∧
    rockStep false 1 { y := ROCK_HEIGHT / 2, velocity := 0 } =
      { y := ROCK_HEIGHT / 2, velocity := 0 } :=
  c3_ground_clamp_fixed_point false 1 1 { y := 20, velocity := 0 }
    (by norm_num [newYOf, newVelocityOf, ROCK_HEIGHT, GRAVITY]) (by norm_num)

lemma rockStep_y_ge (jump : Bool) (dt : ℚ) (r : Rock) :
    ROCK_HEIGHT / 2 ≤ (rockStep jump dt r).y := by
  unfold rockStep
  split
  · exact le_rfl
  · next h => exact le_of_lt (not_le.mp h)

lemma rockStep_velocity_zero_of_grounded (jump : Bool) (dt : ℚ) (r : Rock)
    (h : (rockStep jump dt r).y = ROCK_HEIGHT / 2) :
    (rockStep jump dt r).velocity = 0 := by
  by_cases hc : newYOf jump dt r ≤ ROCK_HEIGHT / 2
  · rw [rockStep_of_clamp hc]
  · rw [rockStep_of_no_clamp (not_le.mp hc)] at h
    exact absurd h (ne_of_gt (not_le.mp hc))

/-- After one step the rock satisfies the ground invariant, whatever the
pre-state: y is at least ROCK_HEIGHT/2, and if y sits exactly at the ground
height then the step took the clamp branch, so velocity is 0. -/
lemma rockStep_invariant (jump : Bool) (dt : ℚ) (r : Rock) :
    ROCK_HEIGHT / 2 ≤ (rockStep jump dt r).y ∧
    ((rockStep jump dt r).y = ROCK_HEIGHT / 2 → (rockStep jump dt r).velocity = 0) :=
  ⟨rockStep_y_ge jump dt r, rockStep_velocity_zero_of_grounded jump dt r⟩

lemma runSteps_invariant (inputs : List (Bool × ℚ)) :
    ∀ r : Rock,
      (ROCK_HEIGHT / 2 ≤ r.y ∧ (r.y = ROCK_HEIGHT / 2 → r.velocity = 0)) →
      ROCK_HEIGHT / 2 ≤ (runSteps r inputs).y ∧
      ((runSteps r inputs).y = ROCK_HEIGHT / 2 → (runSteps r inputs).velocity = 0) := by
  induction inputs with
  | nil => intro r h; simpa [runSteps_nil] using h
  | cons i l ih =>
      intro r _
      rw [runSteps_cons]
      exact ih (rockStep i.1 i.2 r) (rockStep_invariant i.1 i.2 r)

/-- Claim C4: for every starting rock state, every nonempty sequence of
update steps with any jump flag and any dt ≥ 0 per step, the final state
satisfies y ≥ ROCK_HEIGHT/2 = 26, and its velocity is 0 whenever y is
clamped to the ground height. -/
theorem c4_rock_invariant (r : Rock) (inputs : List (Bool × ℚ))
    (hne : inputs ≠ []) (hdts : ∀ p ∈ inputs, 0 ≤ p.2) :
    ROCK_HEIGHT / 2 ≤ (runSteps r inputs).y ∧
    ((runSteps r inputs).y = ROCK_HEIGHT / 2 → (runSteps r inputs).velocity = 0) := by
  obtain ⟨i, l, rfl⟩ := List.exists_cons_of_ne_nil hne
  rw [runSteps_cons]
  exact runSteps_invariant l (rockStep i.1 i.2 r) (rockStep_invariant i.1 i.2 r)

/-- Claim C4 witness: two concrete frames from the creation state, the
second one driving the rock into the ground clamp (dt = 20 gives a raw
position far below 26). -/
theorem c4_rock_invariant_witness :
    ROCK_HEIGHT / 2 ≤ (runSteps Rock.new [(false, 1), (false, 20)]).y ∧
    ((runSteps Rock.new [(false, 1), (false, 20)]).y = ROCK_HEIGHT / 2 →
      (runSteps Rock.new [(false, 1), (false, 20)]).velocity = 0) :=
  c4_rock_invariant Rock.new [(false, 1), (false, 20)]
    (by simp)
    (by
      intro p hp
      simp only [List.mem_cons, List.not_mem_nil, or_false] at hp
      rcases hp with rfl | rfl <;> norm_num)

/-- Claim C5: the obstacle scroll is x_post = x - 5·dt, unless that raw
value is ≤ -OBSTACLE_WIDTH/2 = -151.5, in which case the post-state is
x_post = SCREEN_WIDTH = 500 exactly — a hard reset, not a wrapped
remainder of the overshoot. -/
theorem c5_obstacle_scroll (dt : ℚ) (o : Obstacle) :
    (o.x - 5 * dt ≤ -(303/2) → (obstacleStep dt o).x = 500) ∧
    (-(303/2) < o.x - 5 * dt → (obstacleStep dt o).x = o.x - 5 * dt) := by
  constructor
  · intro h
    have : o.x - 5 * dt ≤ -OBSTACLE_WIDTH / 2 := by
      rw [OBSTACLE_WIDTH]; linarith
    simp [obstacleStep, this, SCREEN_WIDTH]
  · intro h
    have : ¬ (o.x - 5 * dt ≤ -OBSTACLE_WIDTH / 2) := by
      rw [OBSTACLE_WIDTH]; push_neg; linarith
    simp [obstacleStep, this]

/-- Claim C5 witness: the concrete wrap frame x = -150, dt = 1 (raw value
-155 ≤ -151.5, post-state 500) and a concrete plain-scroll frame x = 490,
dt = 1 (post-state 485). -/
theorem c5_obstacle_scroll_witness :
    (obstacleStep 1 { x := -150 }).x = 500 ∧ (obstacleStep 1 { x := 490 }).x = 490 - 5 * 1 :=
  ⟨(c5_obstacle_scroll 1 { x := -150 }).1 (by norm_num),
   (c5_obstacle_scroll 1 { x := 490 }).2 (by norm_num)⟩

lemma obstacleStep_mem_range {dt : ℚ} {o : Obstacle} (hdt : 0 ≤ dt)
    (h : -OBSTACLE_WIDTH / 2 ≤ o.x ∧ o.x ≤ SCREEN_WIDTH) :
    -OBSTACLE_WIDTH / 2 ≤ (obstacleStep dt o).x ∧ (obstacleStep dt o).x ≤ SCREEN_WIDTH := by
  unfold obstacleStep
  split
  · simp only
    constructor
    · rw [OBSTACLE_WIDTH, SCREEN_WIDTH]; norm_num
    · exact le_refl _
  · next hwrap =>
      simp only
      constructor
      · exact le_of_lt (not_le.mp hwrap)
      · have h5 : 0 ≤ 5 * dt := by linarith
        linarith [h.2]

lemma runObstacle_mem_range (dts : List ℚ) :
    ∀ o : Obstacle, (∀ d ∈ dts, 0 ≤ d) →
      (-OBSTACLE_WIDTH / 2 ≤ o.x ∧ o.x ≤ SCREEN_WIDTH) →
      -OBSTACLE_WIDTH / 2 ≤ (runObstacle o dts).x ∧ (runObstacle o dts).x ≤ SCREEN_WIDTH := by
  induction dts with
  | nil => intro o _ h; simpa [runObstacle_nil] using h
  | cons d l ih =>
      intro o hdts h
      rw [runObstacle_cons]
      exact ih (obstacleStep d o) (fun e he => hdts e (List.mem_cons_of_mem d he))
        (obstacleStep_mem_range (hdts d (List.mem_cons_self d l)) h)

/-- Claim C6: the obstacle is created at x = 490, and after every sequence
of update steps with dt ≥ 0 per step its position stays within
[-OBSTACLE_WIDTH/2, SCREEN_WIDTH] = [-151.5, 500]. -/
theorem c6_obstacle_range_invariant (dts : List ℚ) (hdts : ∀ d ∈ dts, 0 ≤ d) :
    Obstacle.new.x = 490 ∧
    -OBSTACLE_WIDTH / 2 ≤ (runObstacle Obstacle.new dts).x ∧
    (runObstacle Obstacle.new dts).x ≤ SCREEN_WIDTH := by
  refine ⟨by norm_num [Obstacle.new, SCREEN_HEIGHT], ?_⟩
  apply runObstacle_mem_range dts Obstacle.new hdts
  constructor
  · norm_num [Obstacle.new, SCREEN_HEIGHT, OBSTACLE_WIDTH]
  · norm_num [Obstacle.new, SCREEN_HEIGHT, SCREEN_WIDTH]

/-- Claim C6 witness: a concrete three-frame run (the last frame forces the
wrap) staying inside the range. -/
theorem c6_obstacle_range_invariant_witness :
    Obstacle.new.x = 490 ∧
    -OBSTACLE_WIDTH / 2 ≤ (runObstacle Obstacle.new [1, 2, 128]).x ∧
    (runObstacle Obstacle.new [1, 2, 128]).x ≤ SCREEN_WIDTH :=
  c6_obstacle_range_invariant [1, 2, 128]
    (by
      intro d hd
      simp only [List.mem_cons, List.not_mem_nil, or_false] at hd
      rcases hd with rfl | rfl | rfl <;> norm_num)

/-- Claim C7: the per-frame update is total unconditional arithmetic — for
every pre-state, elapsed time and jump flag it produces a post-state (it is
a plain function, with no error or failure value in its type), and that
post-state is never partial: both components and both mirrored transform
coordinates are fully written and consistent. -/
theorem c7_update_total (jump : Bool) (elapsed : ℚ) (w : World) :
    ∃ w2 : World, frameUpdate jump elapsed w = w2 ∧
      w2.rockTransformY = w2.rock.y ∧ w2.obstacleTransformX = w2.obstacle.x :=
  ⟨frameUpdate jump elapsed w, rfl, rfl, rfl⟩

/-- Claim C8: the two entities are updated independently in a frame — the
obstacle post-state is determined by its own position and the elapsed time
alone (two runs differing in the rock state, the transforms, or the jump
flag give the same obstacle post-state), and symmetrically the rock
post-state is determined by the rock, the jump flag and the elapsed time
alone, unaffected by the obstacle position. -/
theorem c8_entities_independent (elapsed : ℚ) (w1 w2 : World) :
    (∀ jump1 jump2 : Bool, w1.obstacle = w2.obstacle →
      (frameUpdate jump1 elapsed w1).obstacle = (frameUpdate jump2 elapsed w2).obstacle) ∧
    (∀ jump : Bool, w1.rock = w2.rock →
      (frameUpdate jump elapsed w1).rock = (frameUpdate jump elapsed w2).rock) := by
  constructor
  · intro j1 j2 h
    simp [frameUpdate, h]
  · intro j h
    simp [frameUpdate, h]

/-- Claim C8 witness: two concrete runs sharing only the obstacle (rock
state, transforms and jump flag all differ) give equal obstacle post-states,
and two runs sharing only the rock give equal rock post-states. -/
theorem c8_entities_independent_witness :
    (frameUpdate true 1 initialWorld).obstacle =
      (frameUpdate false 1
        { rock := { y := 50, velocity := -3 }
          rockTransformY := 77
          obstacle := Obstacle.new
          obstacleTransformX := 0 }).obstacle ∧
    (frameUpdate true 1 initialWorld).rock =
      (frameUpdate true 1
        { rock := Rock.new
          rockTransformY := 0
          obstacle := { x := -100 }
          obstacleTransformX := -100 }).rock :=
  ⟨(c8_entities_independent 1 initialWorld
      { rock := { y := 50, velocity := -3 }
        rockTransformY := 77
        obstacle := Obstacle.new
        obstacleTransformX := 0 }).1 true false rfl,
   (c8_entities_independent 1 initialWorld
      { rock := Rock.new
        rockTransformY := 0
        obstacle := { x := -100 }
        obstacleTransformX := -100 }).2 true rfl⟩

/-- Claim C9: at scene start the rock render transform has vertical
coordinate 0 while the component holds y = 100, velocity = 0, so the two
disagree; and after every update step the transform vertical coordinate
equals the component y, because the step writes the freshly computed
position into both. -/
theorem c9_transform_mirrors_component :
    initialWorld.rockTransformY = 0 ∧
    initialWorld.rock.y = 100 ∧
    initialWorld.rock.velocity = 0 ∧
    initialWorld.rockTransformY ≠ initialWorld.rock.y ∧
    ∀ (jump : Bool) (elapsed : ℚ) (w : World),
      (frameUpdate jump elapsed w).rockTransformY = (frameUpdate jump elapsed w).rock.y := by
  refine ⟨rfl, rfl, rfl, ?_, fun _ _ _ => rfl⟩
  norm_num [initialWorld, Rock.new]

lemma runSteps_cons_pair (b : Bool) (d : ℚ) (l : List (Bool × ℚ)) (r : Rock) :
    runSteps r ((b, d) :: l) = runSteps (rockStep b d r) l := rfl

lemma rockStep_jump_one (r : Rock) (h : ROCK_HEIGHT / 2 ≤ r.y) :
    rockStep true 1 r = { y := r.y + 13/2, velocity := 13/2 } := by
  have hval : newVelocityOf true 1 r = 13/2 := by
    norm_num [newVelocityOf, GRAVITY]
  have hy : newYOf true 1 r = r.y + 13/2 := by
    rw [newYOf, hval]; ring
  have hno : ROCK_HEIGHT / 2 < newYOf true 1 r := by
    rw [hy, ROCK_HEIGHT] at *
    linarith
  rw [rockStep_of_no_clamp hno, hy, hval]

lemma runSteps_jump_replicate (n : ℕ) :
    ∀ r : Rock, ROCK_HEIGHT / 2 ≤ r.y →
      (runSteps r (List.replicate n (true, 1))).y = r.y + 13/2 * n := by
  induction n with
  | zero => intro r _; simp [runSteps_nil]
  | succ k ih =>
      intro r h
      rw [List.replicate_succ, runSteps_cons_pair, rockStep_jump_one r h]
      have h2 : ROCK_HEIGHT / 2 ≤ ({ y := r.y + 13/2, velocity := 13/2 } : Rock).y := by
        simp only
        linarith
      rw [ih { y := r.y + 13/2, velocity := 13/2 } h2]
      push_cast
      ring

/-- Claim C10: the update has no ceiling — whenever the ground clamp does
not fire (raw position strictly above ROCK_HEIGHT/2) the new position is
the full integrated value, however large; each jump frame with dt = 1 from
a state at or above the ground sets velocity to 13/2 = 6.5 and raises y by
6.5; hence for every bound B a finite number of jump frames with dt = 1
from the creation state pushes y above B. -/
theorem c10_no_upper_bound (B : ℚ) :
    (∀ (jump : Bool) (dt : ℚ) (r : Rock), ROCK_HEIGHT / 2 < newYOf jump dt r →
      (rockStep jump dt r).y = r.y + newVelocityOf jump dt r * dt) ∧
    (∀ r : Rock, ROCK_HEIGHT / 2 ≤ r.y →
      (rockStep true 1 r).velocity = 13/2 ∧ (rockStep true 1 r).y = r.y + 13/2) ∧
    ∃ n : ℕ, B < (runSteps Rock.new (List.replicate n (true, 1))).y := by
  refine ⟨?_, ?_, ?_⟩
  · intro jump dt r h
    rw [rockStep_of_no_clamp h]
    rfl
  · intro r h
    rw [rockStep_jump_one r h]
    exact ⟨rfl, rfl⟩
  · obtain ⟨n, hn⟩ := exists_nat_gt B
    refine ⟨n, ?_⟩
    rw [runSteps_jump_replicate n Rock.new (by norm_num [Rock.new, ROCK_HEIGHT])]
    have h0 : (0 : ℚ) ≤ (n : ℚ) := Nat.cast_nonneg n
    have h1 : (n : ℚ) ≤ 13/2 * (n : ℚ) := by nlinarith
    have h2 : Rock.new.y = 100 := rfl
    rw [h2]
    linarith

/-- Claim C10 witness: one no-clamp jump frame that carries the rock from
y = 496 to 502.5, strictly above SCREEN_HEIGHT = 500 (no ceiling is
applied), and a finite jump-frame sequence exceeding the bound 10000. -/
theorem c10_no_upper_bound_witness :
    (rockStep true 1 { y := 496, velocity := 0 }).y =
      496 + newVelocityOf true 1 { y := 496, velocity := 0 } * 1 ∧
    ∃ n : ℕ, 10000 < (runSteps Rock.new (List.replicate n (true, 1))).y :=
  ⟨(c10_no_upper_bound 10000).1 true 1 { y := 496, velocity := 0 }
      (by norm_num [newYOf, newVelocityOf, ROCK_HEIGHT, GRAVITY]),
   (c10_no_upper_bound 10000).2.2⟩

end AmethystGame
